import Mathlib

/-!
Shallow embedding of the port-control library (NAT traversal via NAT-PMP /
PCP / UPnP).  The definitions below are translated from the TypeScript
sources: `src/utils.ts` (byte-matrix codec, IP utilities, router-IP
constants, array helpers), `src/pcp.ts` (the PCP client: request encoding,
add / delete pipelines, wave fan-out, refresh timers) and the `PortControl`
orchestrator class (protocol fall-back, registry, `deleteMapping`,
`close`).  JavaScript machine numbers are modelled as `Nat` / `Int` with
explicit `% 2^w` where DataView wrapping matters; promise rejection is
`Except`; `undefined` is `Option.none`.
-/

namespace PortsModel

/-! ## Byte-matrix codec (`src/utils.ts`, `createArrayBuffer`; DataView reads)

A JavaScript `ArrayBuffer` + `DataView` is modelled as a size together with
a byte function.  `DataView.setIntN(off, v, false)` stores `v % 2^N`
big-endian; `getUintN` reads big-endian.  All writes issued by this code
stay inside the buffer, so the DataView range check never fires. -/

structure JsBuffer where
  size : Nat
  data : Nat → Nat

/-- Write one byte (value already reduced by the caller). -/
def setByte (b : JsBuffer) (off v : Nat) : JsBuffer :=
  { b with data := fun i => if i = off then v else b.data i }

/-- `DataView.setInt8(off, v)`: stores `v` wrapped to 8 bits. -/
def setInt8 (b : JsBuffer) (off v : Nat) : JsBuffer :=
  setByte b off (v % 256)

/-- `DataView.setInt16(off, v, false)`: big-endian 16-bit store. -/
def setInt16 (b : JsBuffer) (off v : Nat) : JsBuffer :=
  setByte (setByte b off (v % 65536 / 256)) (off + 1) (v % 256)

/-- `DataView.setInt32(off, v, false)`: big-endian 32-bit store. -/
def setInt32 (b : JsBuffer) (off v : Nat) : JsBuffer :=
  setByte (setByte (setByte (setByte b off
    (v % 4294967296 / 16777216)) (off + 1)
    (v % 16777216 / 65536)) (off + 2)
    (v % 65536 / 256)) (off + 3)
    (v % 256)

/-- `utils.createArrayBuffer(bytes, matrix)`: a zero-filled buffer of
`bytes` bytes, then each `(width, offset, value)` row is written in order;
a width outside 8/16/32 only logs `console.error` and writes nothing. -/
def createArrayBuffer (bytes : Nat) (matrix : List (Nat × Nat × Nat)) : JsBuffer :=
  matrix.foldl (fun b row =>
    match row with
    | (8, off, v) => setInt8 b off v
    | (16, off, v) => setInt16 b off v
    | (32, off, v) => setInt32 b off v
    | _ => b)
    { size := bytes, data := fun _ => 0 }

/-- `DataView.getUint8`: bytes of any buffer are below 256, reads reduce. -/
def getUint8 (d : Nat → Nat) (off : Nat) : Nat := d off % 256

/-- `DataView.getUint16(off, false)`: big-endian. -/
def getUint16 (d : Nat → Nat) (off : Nat) : Nat :=
  getUint8 d off * 256 + getUint8 d (off + 1)

/-- `DataView.getUint32(off, false)`: big-endian. -/
def getUint32 (d : Nat → Nat) (off : Nat) : Nat :=
  getUint16 d off * 65536 + getUint16 d (off + 2)

/-! ## PCP MAP request encoding (`src/pcp.ts`, `sendPcpRequest`) -/

/-- The 60-byte PCP MAP request that `sendPcpRequest` builds (RFC 6887
section 11.1), given the already-parsed private-IP octets, the ports, the
requested lifetime and the 96-bit nonce (three 32-bit words).  List reads
use `getD _ 0` because a JavaScript out-of-range index yields `undefined`,
which `setIntN` coerces to 0. -/
def sendPcpRequestBuffer (ipOctets : List Nat) (intPort extPort lifetime : Nat)
    (nonce : List Nat) : JsBuffer :=
  createArrayBuffer 60 [
    (32, 0, 0x2010000),
    (32, 4, lifetime),
    (16, 18, 0xffff),
    (8, 20, ipOctets.getD 0 0),
    (8, 21, ipOctets.getD 1 0),
    (8, 22, ipOctets.getD 2 0),
    (8, 23, ipOctets.getD 3 0),
    (32, 24, nonce.getD 0 0),
    (32, 28, nonce.getD 1 0),
    (32, 32, nonce.getD 2 0),
    (8, 36, 17),
    (16, 40, intPort),
    (16, 42, extPort),
    (16, 54, 0xffff)]

/-- Offsets written by some row of the PCP MAP request matrix. -/
def pcpWrittenOffsets : List Nat :=
  [0, 1, 2, 3, 4, 5, 6, 7, 18, 19, 20, 21, 22, 23,
   24, 25, 26, 27, 28, 29, 30, 31, 32, 33, 34, 35, 36,
   40, 41, 42, 43, 54, 55]

/-! ## IP utilities (`src/utils.ts`) -/

/-- Value of a decimal digit character, `none` otherwise. -/
def digitVal (c : Char) : Option Nat :=
  if c.isDigit then some (c.toNat - 48) else none

/-- Parse a non-empty all-decimal character run. -/
def parseDecL (l : List Char) : Option Nat :=
  if l.isEmpty then none
  else l.foldl
    (fun acc c => acc.bind (fun n => (digitVal c).map (fun d => n * 10 + d)))
    (some 0)

/-- Split a character list at every dot (the structural counterpart of
`split('.')`). -/
def splitOnDot : List Char → List (List Char)
  | [] => [[]]
  | c :: rest =>
    let r := splitOnDot rest
    if c = '.' then [] :: r
    else
      match r with
      | [] => [[c]]
      | g :: gs => (c :: g) :: gs

/-- `ipaddr.IPv4.parse` restricted to plain dotted-quad decimal notation
(the only shape this library ever feeds it): four decimal octets, each at
most 255.  `none` models the parse throwing / an `undefined` argument. -/
def parseIPv4 (s : String) : Option (List Nat) :=
  match splitOnDot s.data with
  | [a, b, c, d] =>
    match parseDecL a, parseDecL b, parseDecL c, parseDecL d with
    | some x, some y, some z, some w =>
      if x ≤ 255 ∧ y ≤ 255 ∧ z ≤ 255 ∧ w ≤ 255 then some [x, y, z, w] else none
    | _, _, _, _ => none
  | _ => none

/-- The 32-bit value of a parsed octet list. -/
def ipNat (octets : List Nat) : Nat :=
  octets.getD 0 0 * 16777216 + octets.getD 1 0 * 65536 +
    octets.getD 2 0 * 256 + octets.getD 3 0

/-- The number that the source pushes into `prefixMatches` for one list
entry: the loop tries masks 1..31 and pushes `mask - 1` for the first mask
at which `ip.match(matchIp, mask)` fails; if the first 31 bits all agree
the loop finishes without pushing anything (`none`). -/
def pushedLen (ip target : Nat) : Option Nat :=
  (List.range 31).findSome? (fun k =>
    if ip / 2 ^ (31 - k) = target / 2 ^ (31 - k) then none else some k)

/-- `utils.longestPrefixMatch(ipList, matchIp)`, translated statement by
statement: build `prefixMatches` (entries agreeing with the target on the
first 31 bits push nothing, so the list can be shorter than `ipList`), take
`Math.max` over it, `indexOf` that maximum, and index `ipList` with the
result.  `Math.max` of an empty array is minus infinity, its `indexOf` is
`-1`, and `ipList[-1]` is `undefined` — modelled by `none`. -/
def longestPrefixMatch (ipList : List String) (matchIp : String) : Option String :=
  match parseIPv4 matchIp with
  | none => none
  | some tOct =>
    let t := ipNat tOct
    let prefixMatches := ipList.filterMap
      (fun v => (parseIPv4 v).bind (fun oct => pushedLen (ipNat oct) t))
    match prefixMatches with
    | [] => none
    | p :: ps =>
      let maxVal := ps.foldl Nat.max p
      ipList.get? (prefixMatches.indexOf maxVal)

/-! ## Array helpers and router-candidate strategy
(`src/utils.ts`: `arrAdd`, `arrDiff`, `ROUTER_IPS`, `filterRouterIps`;
`src/pcp.ts`: the matched / other wave construction) -/

/-- The loop body of `utils.arrAdd`: push each value of `vals` onto `sum`
unless it is already present. -/
def arrAddAux [DecidableEq α] : List α → List α → List α
  | sum, [] => sum
  | sum, v :: rest =>
    if v ∈ sum then arrAddAux sum rest else arrAddAux (sum ++ [v]) rest

/-- `utils.arrAdd(listA, listB)`: concatenate and keep only the first
occurrence of each element. -/
def arrAdd [DecidableEq α] (listA listB : List α) : List α :=
  arrAddAux [] (listA ++ listB)

/-- `utils.arrDiff(listA, listB)`: elements of `listA` not in `listB`. -/
def arrDiff [DecidableEq α] (listA listB : List α) : List α :=
  listA.filter (fun a => decide (a ∉ listB))

/-- `utils.ROUTER_IPS`: the 20 popular default-gateway addresses. -/
def ROUTER_IPS : List String :=
  ["192.168.1.1", "192.168.2.1", "192.168.11.1",
   "192.168.0.1", "192.168.0.30", "192.168.0.50", "192.168.20.1",
   "192.168.30.1", "192.168.62.1", "192.168.100.1", "192.168.102.1",
   "192.168.1.254", "192.168.10.1", "192.168.123.254", "192.168.4.1",
   "10.0.1.1", "10.1.1.1", "10.0.0.13", "10.0.0.2", "10.0.0.138"]

/-- `utils.filterRouterIps(privateIps)`: the longest-prefix match of
`ROUTER_IPS` against each private IP (each entry can be `undefined`, see
`longestPrefixMatch`). -/
def filterRouterIps (privateIps : List String) : List (Option String) :=
  privateIps.map (fun ip => longestPrefixMatch ROUTER_IPS ip)

/-- The first candidate wave of `_sendPcpRequestsInWaves` (and of the
deletion waves): `arrAdd(routerIpCache, filterRouterIps(privateIps))` —
cache entries first, then the LAN-matched defaults, duplicates removed.
Cache entries are definite strings; they are injected into the
possibly-`undefined` element type with `some`. -/
def matchedRouterIps (routerIpCache : List String) (privateIps : List String) :
    List (Option String) :=
  arrAdd (routerIpCache.map some) (filterRouterIps privateIps)

/-- The second candidate wave: `arrDiff(ROUTER_IPS, matchedRouterIps)`. -/
def otherRouterIps (routerIpCache : List String) (privateIps : List String) :
    List (Option String) :=
  arrDiff (ROUTER_IPS.map some) (matchedRouterIps routerIpCache privateIps)

/-! ## Mapping record and registry (`src/utils.ts` `Mapping`,
`activeMappings` in the orchestrator) -/

/-- A deleter closure attached to a successful mapping.  Only PCP code is
part of the sources under verification; a PCP deleter is
`deleteMapping.bind(this-free, externalPort, activeMappings, routerIpCache)`,
so the data it closes over is the external port (the registry and cache
are the live orchestrator state, threaded explicitly here). -/
inductive DeleterK where
  | pcpDel (extPort : Int)
deriving DecidableEq

/-- `utils.Mapping`: fields initialised to `undefined` (`none`) except
`externalPort`, whose failure sentinel is `-1`. -/
structure Mapping where
  internalIp : Option String := none
  externalIp : Option String := none
  internalPort : Option Nat := none
  externalPort : Int := -1
  lifetime : Option Nat := none
  protocol : Option String := none
  timeoutId : Option Nat := none
  nonce : Option (List Nat) := none
  deleter : Option DeleterK := none
  errInfo : Option String := none
deriving DecidableEq

/-- The registry `activeMappings`, a plain object keyed by external port. -/
abbrev Registry := List (Int × Mapping)

/-- Property read `activeMappings[extPort]` (`none` = `undefined`). -/
def lookupReg (reg : Registry) (extPort : Int) : Option Mapping :=
  (reg.find? (fun kv => kv.1 = extPort)).map Prod.snd

/-- Property write `activeMappings[extPort] = m`: overwrite the slot if
the key exists (keys are unique), append otherwise. -/
def setReg : Registry → Int → Mapping → Registry
  | [], extPort, m => [(extPort, m)]
  | kv :: rest, extPort, m =>
    if kv.1 = extPort then (extPort, m) :: rest
    else kv :: setReg rest extPort m

/-- `delete activeMappings[extPort]`. -/
def removeReg (reg : Registry) (extPort : Int) : Registry :=
  reg.filter (fun kv => decide (kv.1 ≠ extPort))

/-! ## Refresh / expiry timers (`src/pcp.ts`, `_saveAndRefreshMapping`) -/

/-- The single timer `_saveAndRefreshMapping` arms: either a re-invocation
of `addMapping(intPort, grantedExtPort, newLifetime)` after `delayMs`
milliseconds (the source omits the `routerIpCache` argument in that
re-invocation), or a one-shot eviction of the registry entry. -/
inductive TimerAction where
  | refresh (delayMs : Nat) (intPort : Nat) (extPort : Int) (newLifetime : Int)
  | evict (delayMs : Nat) (extPort : Int)
deriving DecidableEq

/-- `_saveAndRefreshMapping` from `pcp.addMapping`, with `lifetime` the
original caller argument and `reqLifetime = lifetime === 0 ? 86400 :
lifetime` recomputed as in the closure.  `dLifetime = reqLifetime -
mapping.lifetime` is NaN when `mapping.lifetime` is `undefined`, and a NaN
comparison is false.  The timeout id of the armed timer is `tid`; the
eviction branch does not store its id on the mapping.  When the mapping
succeeded a deleter is attached and the mapping is stored in the
registry. -/
def saveAndRefreshMapping (intPort lifetime : Nat) (m : Mapping)
    (reg : Registry) (tid : Nat) : Mapping × Registry × Option TimerAction :=
  let reqLifetime : Nat := if lifetime = 0 then 24 * 60 * 60 else lifetime
  let dPos : Bool := match m.lifetime with
    | some g => decide ((reqLifetime : Int) - (g : Int) > 0)
    | none => false
  let granted : Nat := m.lifetime.getD 0
  let step1 : Mapping × Option TimerAction :=
    if m.externalPort ≠ -1 ∧ dPos then
      ({ m with timeoutId := some tid },
       some (.refresh (granted * 1000) intPort m.externalPort
         ((reqLifetime : Int) - (granted : Int))))
    else if m.externalPort ≠ -1 ∧ lifetime = 0 then
      ({ m with timeoutId := some tid },
       some (.refresh (24 * 60 * 60 * 1000) intPort m.externalPort 0))
    else if m.externalPort ≠ -1 then
      (m, some (.evict (granted * 1000) m.externalPort))
    else (m, none)
  if step1.1.externalPort ≠ -1 then
    let m2 := { step1.1 with deleter := some (.pcpDel step1.1.externalPort) }
    (m2, setReg reg step1.1.externalPort m2, step1.2)
  else (step1.1, reg, step1.2)

/-! ## PCP client environment and add pipeline (`src/pcp.ts`, `addMapping`) -/

/-- The asynchronous environment a PCP run interacts with:
`privateIps` is the outcome of `utils.getPrivateIps()` (`none` models its
2-second timeout rejection, `some` always holds valid dotted quads);
`respond routerIp request` is the datagram the router at `routerIp` sends
back, `none` modelling the 2-second `countdownReject` timeout;
`freshNonce` is the `randInt` nonce generated when `sendPcpRequest` is
called without one; `timerId` is the handle `setTimeout` returns. -/
structure PcpEnv where
  privateIps : Option (List String)
  respond : String → JsBuffer → Option (Nat → Nat)
  freshNonce : String → List Nat
  timerId : Nat

/-- The mapping object `pcp.addMapping` creates before any network I/O. -/
def initPcpMapping (intPort : Nat) : Mapping :=
  { internalPort := some intPort, protocol := some "pcp" }

/-- The fan-out loop of `_sendPcpRequests` over one wave: for each router
IP pick the private IP by longest prefix match and issue
`sendPcpRequest`.  A candidate whose router IP is `undefined`, whose
longest-prefix match is `undefined`, or whose private IP fails to parse
throws synchronously inside the `map` callback — the per-candidate
`.catch` is not yet attached, so the whole wave rejects (`none` here) and
the outer catch of `_sendPcpRequests` returns the mapping unchanged.  A
candidate that merely times out is caught per-candidate and becomes a
`null` (`none`) entry. -/
def addFanOut (ips : List String) (intPort extPort reqLifetime : Nat)
    (env : PcpEnv) :
    List (Option String) → Option (List (String × Option ((Nat → Nat) × String)))
  | [] => some []
  | none :: _ => none
  | some rip :: rest =>
    match longestPrefixMatch ips rip with
    | none => none
    | some pip =>
      match parseIPv4 pip with
      | none => none
      | some oct =>
        let req := sendPcpRequestBuffer oct intPort extPort reqLifetime
          (env.freshNonce rip)
        (addFanOut ips intPort extPort reqLifetime env rest).map
          (fun l => (rip, (env.respond rip req).map (fun r => (r, pip))) :: l)

/-- `ipOctets.join('.')`. -/
def joinDots (l : List Nat) : String :=
  String.intercalate "." (l.map toString)

/-- One iteration of the response `forEach` in `_sendPcpRequests`: a
successful (non-null) response overwrites the externalPort, externalIp,
internalIp, lifetime and nonce fields of the shared mapping object. -/
def adoptOne (m : Mapping) (resp : Nat → Nat) (pip : String) : Mapping :=
  { m with
    externalPort := (getUint16 resp 42 : Int),
    externalIp := some (joinDots
      [getUint8 resp 56, getUint8 resp 57, getUint8 resp 58, getUint8 resp 59]),
    internalIp := some pip,
    lifetime := some (getUint32 resp 4),
    nonce := some [getUint32 resp 24, getUint32 resp 28, getUint32 resp 32] }

/-- The response `forEach` of `_sendPcpRequests`: every non-null response
is adopted in order (so the last one wins), and each responding router IP
is pushed onto the router-IP cache unless already present. -/
def adoptLoop :
    Mapping → List String → List (String × Option ((Nat → Nat) × String)) →
      Mapping × List String
  | m, cache, [] => (m, cache)
  | m, cache, (_, none) :: rest => adoptLoop m cache rest
  | m, cache, (rip, some (resp, pip)) :: rest =>
    adoptLoop (adoptOne m resp pip)
      (if rip ∈ cache then cache else cache ++ [rip]) rest

/-- `_sendPcpRequests(routerIps)` for one wave, given the private IPs the
inner `getPrivateIps()` resolved to. -/
def sendPcpRequests (intPort extPort reqLifetime : Nat) (m : Mapping)
    (cache : List String) (ips : List String) (env : PcpEnv)
    (wave : List (Option String)) : Mapping × List String :=
  match addFanOut ips intPort extPort reqLifetime env wave with
  | none => (m, cache)
  | some entries => adoptLoop m cache entries

/-- `_sendPcpRequestsInWaves`: query the matched wave; only if it yields
no successful mapping, query the remaining default router IPs.  Also
returns the list of waves that were actually contacted. -/
def sendPcpRequestsInWaves (intPort extPort reqLifetime : Nat) (m : Mapping)
    (cache : List String) (ips : List String) (env : PcpEnv) :
    Mapping × List String × List (List (Option String)) :=
  let matched := matchedRouterIps cache ips
  let r1 := sendPcpRequests intPort extPort reqLifetime m cache ips env matched
  if r1.1.externalPort ≠ -1 then (r1.1, r1.2, [matched])
  else
    let other := otherRouterIps cache ips
    let r2 := sendPcpRequests intPort extPort reqLifetime r1.1 r1.2 ips env other
    (r2.1, r2.2, [matched, other])

/-- Everything `pcp.addMapping` produces: the resolved mapping, the
updated registry and router-IP cache, the timer it armed, and the waves it
contacted. -/
structure PcpAddResult where
  mapping : Mapping
  registry : Registry
  cache : List String
  timer : Option TimerAction
  waves : List (List (Option String))
deriving DecidableEq

/-- `pcp.addMapping` after `getPrivateIps()` has resolved to `ips`. -/
def pcpAddMappingCore (intPort extPort lifetime : Nat) (reg : Registry)
    (cache : List String) (ips : List String) (env : PcpEnv) : PcpAddResult :=
  let reqLifetime : Nat := if lifetime = 0 then 24 * 60 * 60 else lifetime
  let r := sendPcpRequestsInWaves intPort extPort reqLifetime
    (initPcpMapping intPort) cache ips env
  let sr := saveAndRefreshMapping intPort lifetime r.1 reg env.timerId
  { mapping := sr.1, registry := sr.2.1, cache := r.2.1,
    timer := sr.2.2, waves := r.2.2 }

/-- `pcp.addMapping(intPort, extPort, lifetime, activeMappings,
routerIpCache)`.  The promise chain rejects exactly when the leading
`getPrivateIps()` of `_sendPcpRequestsInWaves` rejects — that call is the
only one outside every `.catch`. -/
def pcpAddMapping (intPort extPort lifetime : Nat) (reg : Registry)
    (cache : List String) (env : PcpEnv) : Except String PcpAddResult :=
  match env.privateIps with
  | none => .error "getPrivateIps() failed"
  | some ips => .ok (pcpAddMappingCore intPort extPort lifetime reg cache ips env)

/-! ## Orchestrator state (`PortControl`) -/

/-- The `protocolSupportCache` table (all `undefined` before a probe). -/
structure SupportCache where
  natPmp : Option Bool := none
  pcp : Option Bool := none
  upnp : Option Bool := none
  upnpControlUrl : Option String := none
deriving DecidableEq

/-- The mutable state of a `PortControl` instance, plus the set of armed
`setTimeout` handles (a timer is removed by `clearTimeout`). -/
structure PCState where
  activeMappings : Registry := []
  routerIpCache : List String := []
  protocolSupportCache : SupportCache := {}
  armedTimers : List Nat := []
deriving DecidableEq

/-! ## PCP delete pipeline (`src/pcp.ts`, `deleteMapping`) -/

/-- The fan-out loop of `_sendDeletionRequests` over one wave, recording
every deletion request actually handed to `socket.sendTo` (router IP and
the 60-byte lifetime-0 MAP packet).  The deletion request reuses the
mapping nonce when there is one; `sendPcpRequest` generates a fresh one
otherwise.  The first component is the send trace, the second is `none`
when a synchronous throw aborted the wave (see `addFanOut`). -/
def deleteFanOut (ips : List String) (intPort : Nat)
    (nonce : Option (List Nat)) (env : PcpEnv) :
    List (Option String) → List (String × JsBuffer) × Option (List (Option (Nat → Nat)))
  | [] => ([], some [])
  | none :: _ => ([], none)
  | some rip :: rest =>
    match longestPrefixMatch ips rip with
    | none => ([], none)
    | some pip =>
      match parseIPv4 pip with
      | none => ([], none)
      | some oct =>
        let req := sendPcpRequestBuffer oct intPort 0 0
          (nonce.getD (env.freshNonce rip))
        let fo := deleteFanOut ips intPort nonce env rest
        ((rip, req) :: fo.1, fo.2.map (fun l => env.respond rip req :: l))

/-- The response `forEach` of `_deleteFromActiveMappings`: the first
response with result code 0 or 8 clears the timer of the registry entry
and deletes it; a later success finds the entry gone, `undefined.timeoutId`
throws, and the exception aborts the loop (the state reached so far is
kept, and the surrounding promise chain catches the rejection). -/
def deleteLoop (extPort : Int) :
    Registry × List Nat → List (Option (Nat → Nat)) → Registry × List Nat
  | st, [] => st
  | st, none :: rest => deleteLoop extPort st rest
  | (reg, timers), some resp :: rest =>
    if getUint8 resp 3 = 0 ∨ getUint8 resp 3 = 8 then
      match lookupReg reg extPort with
      | none => (reg, timers)
      | some m =>
        deleteLoop extPort
          (removeReg reg extPort,
            match m.timeoutId with
            | some t => timers.erase t
            | none => timers) rest
    else deleteLoop extPort (reg, timers) rest

/-- What a delete run produced: the promise outcome, the state after, and
the deletion requests that went out on the wire. -/
structure DeleteOutcome where
  result : Except String Bool
  state : PCState
  sent : List (String × JsBuffer)

/-- `pcp.deleteMapping(extPort, activeMappings, routerIpCache)`.  The
terminal `.catch` maps every rejection — `getPrivateIps` timing out, the
registry entry being absent (`undefined.internalPort` throws), a wave
aborting, or the double-success `TypeError` inside the `forEach` — to
`false`.  `_sendDeletionRequestsInWaves` reads `.externalPort` off the
response array, which is `undefined` and so never equals `-1`: the second
wave is never contacted.  `_deleteFromActiveMappings` ends with `return
false` — the `return true` inside its `forEach` callback only leaves the
callback — so the resolved value is `false` even after a successful
deletion. -/
def pcpDeleteMapping (extPort : Int) (s : PCState) (env : PcpEnv) :
    DeleteOutcome :=
  match env.privateIps with
  | none => ⟨.ok false, s, []⟩
  | some ips =>
    match lookupReg s.activeMappings extPort with
    | none => ⟨.ok false, s, []⟩
    | some m =>
      let intPort := m.internalPort.getD 0
      let matched := matchedRouterIps s.routerIpCache ips
      let fo := deleteFanOut ips intPort m.nonce env matched
      match fo.2 with
      | none => ⟨.ok false, s, fo.1⟩
      | some resps =>
        let st := deleteLoop extPort (s.activeMappings, s.armedTimers) resps
        ⟨.ok false, { s with activeMappings := st.1, armedTimers := st.2 }, fo.1⟩

/-! ## Orchestrator methods (`PortControl`) -/

/-- `PortControl.deleteMapping(extPort)`: return false for an absent
entry, otherwise invoke the deleter the mapping was stored with.  Only
PCP deleters exist in the verified sources; a mapping stored without a
deleter would make `mapping.deleter()` throw. -/
def PortControl.deleteMapping (s : PCState) (extPort : Int) (env : PcpEnv) :
    DeleteOutcome :=
  match lookupReg s.activeMappings extPort with
  | none => ⟨.ok false, s, []⟩
  | some m =>
    match m.deleter with
    | none => ⟨.error "TypeError: mapping.deleter is not a function", s, []⟩
    | some (.pcpDel p) => pcpDeleteMapping p s env

/-- The per-protocol outcomes the orchestrator dispatches to.  `nat-pmp.ts`
and `upnp.ts` are not among the sources under verification, so those two
clients are modelled from the spec (section 7, Failure semantics): each
resolves with a Mapping — `externalPort = -1` on failure — and never
rejects. -/
structure OrchEnv where
  pmpMapping : Mapping
  upnpMapping : Mapping
  pcp : PcpEnv

/-- Protocols, in fall-back order. -/
inductive Protocol where
  | natPmp
  | pcp
  | upnp
deriving DecidableEq

/-- Modelled from the spec: `natPmp.addMapping` (file `nat-pmp.ts`,
missing from the sources) resolves with a Mapping and never rejects. -/
def natPmpAddMapping (env : OrchEnv) : Mapping := env.pmpMapping

/-- Modelled from the spec: `upnp.addMapping` (file `upnp.ts`, missing
from the sources) resolves with a Mapping and never rejects. -/
def upnpAddMapping (env : OrchEnv) : Mapping := env.upnpMapping

/-- `PortControl.addMapping(intPort, extPort, lifetime)`: with an
unpopulated support cache, try NAT-PMP, then PCP, then UPnP, stopping at
the first mapping whose `externalPort` is not `-1`; with a populated
cache, dispatch once or return the failure mapping.  Also returns the
protocols attempted, in order.  The spec-modelled PMP / UPnP clients do
not touch the orchestrator state here; the PCP client threads the
registry, the cache and its timer through. -/
def PortControl.addMapping (s : PCState) (intPort extPort lifetime : Nat)
    (env : OrchEnv) : Except String (Mapping × PCState × List Protocol) :=
  if s.protocolSupportCache.natPmp = none then
    let m1 := natPmpAddMapping env
    if m1.externalPort ≠ -1 then .ok (m1, s, [.natPmp])
    else
      match pcpAddMapping intPort extPort lifetime s.activeMappings
        s.routerIpCache env.pcp with
      | .error e => .error e
      | .ok r =>
        let s' := { s with
          activeMappings := r.registry,
          routerIpCache := r.cache,
          armedTimers := match r.timer with
            | some _ => s.armedTimers ++ [env.pcp.timerId]
            | none => s.armedTimers }
        if r.mapping.externalPort ≠ -1 then .ok (r.mapping, s', [.natPmp, .pcp])
        else .ok (upnpAddMapping env, s', [.natPmp, .pcp, .upnp])
  else
    if s.protocolSupportCache.natPmp = some true then
      .ok (natPmpAddMapping env, s, [.natPmp])
    else if s.protocolSupportCache.pcp = some true then
      match pcpAddMapping intPort extPort lifetime s.activeMappings
        s.routerIpCache env.pcp with
      | .error e => .error e
      | .ok r =>
        let s' := { s with
          activeMappings := r.registry,
          routerIpCache := r.cache,
          armedTimers := match r.timer with
            | some _ => s.armedTimers ++ [env.pcp.timerId]
            | none => s.armedTimers }
        .ok (r.mapping, s', [.pcp])
    else if s.protocolSupportCache.upnp = some true then
      .ok (upnpAddMapping env, s, [.upnp])
    else
      .ok ({ errInfo := some "No protocols are supported from last probe" },
        s, [])

/-- Own and inherited property names that supply methods on a plain
object literal: its own keys here are numeric external ports, and
`Object.prototype` provides these and no others — in particular no
`forEach`, which lives on `Array.prototype`. -/
def objectPrototypeMethodNames : List String :=
  ["constructor", "hasOwnProperty", "isPrototypeOf", "propertyIsEnumerable",
   "toLocaleString", "toString", "valueOf"]

/-- `PortControl.close()`: the source runs
`this.activeMappings.forEach((_, extPort) => ...)` to snapshot the keys.
`activeMappings` is a plain object, so the `forEach` property lookup
misses both its own (numeric) keys and `Object.prototype` and yields
`undefined`; calling it throws a `TypeError` inside the promise executor,
which rejects the returned promise before any `deleteMapping` call is
made.  On the (counterfactual) path where a `forEach` method existed, the
snapshot of the keys would be returned. -/
def PortControl.close (s : PCState) : Except String (List Int) :=
  if "forEach" ∈ objectPrototypeMethodNames then
    .ok (s.activeMappings.map Prod.fst)
  else
    .error "TypeError: this.activeMappings.forEach is not a function"

/-! ## Views of a wave's fan-out entries -/

/-- The non-null entries of a wave's response list (response with the
private IP it was sent from), in wave order. -/
def successes (l : List (String × Option ((Nat → Nat) × String))) :
    List ((Nat → Nat) × String) :=
  l.filterMap (fun e => e.2)

/-- The router IPs whose probes got a response, in wave order. -/
def respondedIps (l : List (String × Option ((Nat → Nat) × String))) :
    List String :=
  l.filterMap (fun e => if e.2.isSome then some e.1 else none)

/-! ## Concrete scenarios used to settle the claims -/

/-- A PCP MAP response: result code 0, lifetime 600, external port 4001,
external IP 203.0.113.5 (all other bytes 0). -/
def respA : Nat → Nat := fun i =>
  if i = 6 then 2 else if i = 7 then 88 else
  if i = 42 then 15 else if i = 43 then 161 else
  if i = 56 then 203 else if i = 58 then 113 else if i = 59 then 5 else 0

/-- A PCP MAP response: result code 0, lifetime 600, external port 4002,
external IP 203.0.113.6. -/
def respB : Nat → Nat := fun i =>
  if i = 6 then 2 else if i = 7 then 88 else
  if i = 42 then 15 else if i = 43 then 162 else
  if i = 56 then 203 else if i = 58 then 113 else if i = 59 then 6 else 0

/-- Two LAN IPs whose longest-prefix matches are 192.168.1.1 and
10.0.1.1; both routers answer successfully in the same (first) wave. -/
def envC4 : PcpEnv :=
  { privateIps := some ["192.168.1.42", "10.0.1.5"],
    respond := fun ip _ =>
      if ip = "192.168.1.1" then some respA
      else if ip = "10.0.1.1" then some respB else none,
    freshNonce := fun _ => [1, 2, 3],
    timerId := 5 }

/-- The fan-out entries the first wave of `envC4` produces. -/
def entriesC4 : List (String × Option ((Nat → Nat) × String)) :=
  [("192.168.1.1", some (respA, "192.168.1.42")),
   ("10.0.1.1", some (respB, "10.0.1.5"))]

/-- A PCP MAP response with non-zero result code 2 (NOT_AUTHORIZED),
lifetime 600, external port 4001, external IP 203.0.113.5. -/
def respC6 : Nat → Nat := fun i =>
  if i = 3 then 2 else
  if i = 6 then 2 else if i = 7 then 88 else
  if i = 42 then 15 else if i = 43 then 161 else
  if i = 56 then 203 else if i = 58 then 113 else if i = 59 then 5 else 0

/-- One cached router that replies with the result-code-2 response. -/
def envC6 : PcpEnv :=
  { privateIps := some ["192.168.1.42"],
    respond := fun ip _ => if ip = "192.168.1.1" then some respC6 else none,
    freshNonce := fun _ => [1, 2, 3],
    timerId := 5 }

/-- A live PCP registry entry on external port 4000 with nonce
`[11, 22, 33]` and armed refresh timer 7. -/
def mC1 : Mapping :=
  { internalIp := some "192.168.1.42", externalIp := some "203.0.113.5",
    internalPort := some 4000, externalPort := 4000, lifetime := some 120,
    protocol := some "pcp", timeoutId := some 7, nonce := some [11, 22, 33],
    deleter := some (.pcpDel 4000) }

/-- Orchestrator state holding `mC1` with its timer armed. -/
def sC1 : PCState :=
  { activeMappings := [(4000, mC1)], routerIpCache := ["192.168.1.1"],
    protocolSupportCache := {}, armedTimers := [7] }

/-- A deletion response with result code 8 (NO_RESOURCES). -/
def respDel8 : Nat → Nat := fun i => if i = 3 then 8 else 0

/-- The cached router acknowledges the deletion with result code 8. -/
def envC1 : PcpEnv :=
  { privateIps := some ["192.168.1.42"],
    respond := fun ip _ => if ip = "192.168.1.1" then some respDel8 else none,
    freshNonce := fun _ => [0, 0, 0],
    timerId := 9 }

/-- An environment in which local-IP enumeration fails: `getPrivateIps()`
rejects after its 2-second window, and NAT-PMP / UPnP find nothing. -/
def envC5 : OrchEnv :=
  { pmpMapping := {},
    upnpMapping := {},
    pcp := { privateIps := none, respond := fun _ _ => none,
             freshNonce := fun _ => [0, 0, 0], timerId := 1 } }

/-- An environment with one local IP in which no router ever replies and
NAT-PMP / UPnP find nothing. -/
def envC5ok : OrchEnv :=
  { pmpMapping := {},
    upnpMapping := {},
    pcp := { privateIps := some ["192.168.1.42"], respond := fun _ _ => none,
             freshNonce := fun _ => [0, 0, 0], timerId := 1 } }

/-- An inert PCP environment (never used for I/O). -/
def envTrivial : PcpEnv :=
  { privateIps := none, respond := fun _ _ => none,
    freshNonce := fun _ => [0, 0, 0], timerId := 0 }

/-! ## Verification of the claims -/

lemma mem_arrAddAux [DecidableEq α] (l : List α) :
    ∀ s x, x ∈ arrAddAux s l ↔ x ∈ s ∨ x ∈ l := by
  induction l with
  | nil => intro s x; simp [arrAddAux]
  | cons v rest ih =>
    intro s x
    by_cases hv : v ∈ s
    · simp only [arrAddAux, if_pos hv, ih]
      constructor
      · rintro (h | h)
        · exact Or.inl h
        · exact Or.inr (List.mem_cons_of_mem _ h)
      · rintro (h | h)
        · exact Or.inl h
        · rcases List.mem_cons.mp h with rfl | h
          · exact Or.inl hv
          · exact Or.inr h
    · simp only [arrAddAux, if_neg hv, ih]
      simp only [List.mem_append, or_assoc, List.mem_cons, List.mem_singleton]
      tauto

lemma nodup_arrAddAux [DecidableEq α] (l : List α) :
    ∀ s : List α, s.Nodup → (arrAddAux s l).Nodup := by
  induction l with
  | nil => intro s hs; exact hs
  | cons v rest ih =>
    intro s hs
    by_cases hv : v ∈ s
    · simpa [arrAddAux, if_pos hv] using ih s hs
    · have : (s ++ [v]).Nodup := by
        simp [List.nodup_append, hs, hv]
      simpa [arrAddAux, if_neg hv] using ih (s ++ [v]) this

lemma arrAddAux_append [DecidableEq α] (l₁ : List α) :
    ∀ (s : List α) (l₂ : List α),
      arrAddAux s (l₁ ++ l₂) = arrAddAux (arrAddAux s l₁) l₂ := by
  induction l₁ with
  | nil => intro s l₂; rfl
  | cons v rest ih =>
    intro s l₂
    by_cases hv : v ∈ s
    · simp [arrAddAux, if_pos hv, ih]
    · simp [arrAddAux, if_neg hv, ih]

lemma arrAddAux_extends [DecidableEq α] (l : List α) :
    ∀ s : List α, ∃ t, arrAddAux s l = s ++ t := by
  induction l with
  | nil => intro s; exact ⟨[], by simp [arrAddAux]⟩
  | cons v rest ih =>
    intro s
    by_cases hv : v ∈ s
    · obtain ⟨t, ht⟩ := ih s
      exact ⟨t, by simp [arrAddAux, if_pos hv, ht]⟩
    · obtain ⟨t, ht⟩ := ih (s ++ [v])
      exact ⟨[v] ++ t, by simp [arrAddAux, if_neg hv, ht]⟩

/-- `arrAdd` keeps exactly the elements of both operands. -/
lemma mem_arrAdd [DecidableEq α] (A B : List α) (x : α) :
    x ∈ arrAdd A B ↔ x ∈ A ∨ x ∈ B := by
  simp [arrAdd, mem_arrAddAux, List.mem_append]

/-- `arrAdd` removes duplicates. -/
lemma nodup_arrAdd [DecidableEq α] (A B : List α) : (arrAdd A B).Nodup :=
  nodup_arrAddAux _ _ List.nodup_nil

/-- The deduplicated first operand of `arrAdd` comes first. -/
lemma arrAdd_first [DecidableEq α] (A B : List α) :
    ∃ t, arrAdd A B = arrAdd A [] ++ t := by
  have h1 : arrAdd A B = arrAddAux (arrAddAux [] A) B := by
    simp [arrAdd, arrAddAux_append]
  obtain ⟨t, ht⟩ := arrAddAux_extends B (arrAddAux [] A)
  refine ⟨t, ?_⟩
  rw [h1, ht]
  simp [arrAdd]

/-- C9: the encoded PCP MAP request is a 60-byte buffer; reading the field
positions back recovers intPort, extPort, lifetime and the nonce words, and
every unwritten byte is 0. -/
theorem pcp_request_roundtrip (ipOctets : List Nat)
    (intPort extPort lifetime n0 n1 n2 : Nat)
    (hip : intPort ≤ 65535) (hep : extPort ≤ 65535)
    (hlt : lifetime < 4294967296)
    (h0 : n0 < 4294967296) (h1 : n1 < 4294967296) (h2 : n2 < 4294967296) :
    (sendPcpRequestBuffer ipOctets intPort extPort lifetime [n0, n1, n2]).size = 60 ∧
    getUint16 (sendPcpRequestBuffer ipOctets intPort extPort lifetime [n0, n1, n2]).data 40 = intPort ∧
    getUint16 (sendPcpRequestBuffer ipOctets intPort extPort lifetime [n0, n1, n2]).data 42 = extPort ∧
    getUint32 (sendPcpRequestBuffer ipOctets intPort extPort lifetime [n0, n1, n2]).data 4 = lifetime ∧
    getUint32 (sendPcpRequestBuffer ipOctets intPort extPort lifetime [n0, n1, n2]).data 24 = n0 ∧
    getUint32 (sendPcpRequestBuffer ipOctets intPort extPort lifetime [n0, n1, n2]).data 28 = n1 ∧
    getUint32 (sendPcpRequestBuffer ipOctets intPort extPort lifetime [n0, n1, n2]).data 32 = n2 ∧
    (∀ i, i < 60 → i ∉ pcpWrittenOffsets →
      (sendPcpRequestBuffer ipOctets intPort extPort lifetime [n0, n1, n2]).data i = 0) := by
  refine ⟨rfl, ?_, ?_, ?_, ?_, ?_, ?_, ?_⟩
  · simp [sendPcpRequestBuffer, createArrayBuffer, setInt8, setInt16, setInt32,
      setByte, getUint16, getUint8]
    omega
  · simp [sendPcpRequestBuffer, createArrayBuffer, setInt8, setInt16, setInt32,
      setByte, getUint16, getUint8]
    omega
  · simp [sendPcpRequestBuffer, createArrayBuffer, setInt8, setInt16, setInt32,
      setByte, getUint32, getUint16, getUint8]
    omega
  · simp [sendPcpRequestBuffer, createArrayBuffer, setInt8, setInt16, setInt32,
      setByte, getUint32, getUint16, getUint8]
    omega
  · simp [sendPcpRequestBuffer, createArrayBuffer, setInt8, setInt16, setInt32,
      setByte, getUint32, getUint16, getUint8]
    omega
  · simp [sendPcpRequestBuffer, createArrayBuffer, setInt8, setInt16, setInt32,
      setByte, getUint32, getUint16, getUint8]
    omega
  · intro i hlt60 hmem
    interval_cases i <;>
      first
        | rfl
        | exact absurd (by decide) hmem

/-- Closed witness for `pcp_request_roundtrip` at a concrete request. -/
theorem pcp_request_roundtrip_witness :
    (4000 ≤ 65535 ∧ 4001 ≤ 65535 ∧ 600 < 4294967296 ∧
      (11 : Nat) < 4294967296 ∧ (22 : Nat) < 4294967296 ∧ (33 : Nat) < 4294967296) ∧
    ((sendPcpRequestBuffer [192, 168, 1, 42] 4000 4001 600 [11, 22, 33]).size = 60 ∧
    getUint16 (sendPcpRequestBuffer [192, 168, 1, 42] 4000 4001 600 [11, 22, 33]).data 40 = 4000 ∧
    getUint16 (sendPcpRequestBuffer [192, 168, 1, 42] 4000 4001 600 [11, 22, 33]).data 42 = 4001 ∧
    getUint32 (sendPcpRequestBuffer [192, 168, 1, 42] 4000 4001 600 [11, 22, 33]).data 4 = 600 ∧
    getUint32 (sendPcpRequestBuffer [192, 168, 1, 42] 4000 4001 600 [11, 22, 33]).data 24 = 11 ∧
    getUint32 (sendPcpRequestBuffer [192, 168, 1, 42] 4000 4001 600 [11, 22, 33]).data 28 = 22 ∧
    getUint32 (sendPcpRequestBuffer [192, 168, 1, 42] 4000 4001 600 [11, 22, 33]).data 32 = 33 ∧
    (∀ i, i < 60 → i ∉ pcpWrittenOffsets →
      (sendPcpRequestBuffer [192, 168, 1, 42] 4000 4001 600 [11, 22, 33]).data i = 0)) :=
  ⟨by decide,
   pcp_request_roundtrip [192, 168, 1, 42] 4000 4001 600 11 22 33
     (by decide) (by decide) (by decide) (by decide) (by decide) (by decide)⟩

/-- C3 (code bug): with the target itself as the only list entry, the
source returns `undefined` rather than that entry (the inner loop never
pushes for an entry sharing the first 31 bits, `Math.max` of the empty
`prefixMatches` is minus infinity and `ipList[-1]` is `undefined`); and
with a second, unrelated entry in front, the index misalignment returns
the unrelated entry instead of the exact match. -/
theorem longestPrefixMatch_miss_eval :
    longestPrefixMatch ["192.168.1.1"] "192.168.1.1" = none ∧
    longestPrefixMatch ["10.0.0.1", "192.168.1.1"] "192.168.1.1" =
      some "10.0.0.1" := by
  constructor
  · rfl
  · rfl

/-- C7: after a successful add whose granted lifetime is strictly below
the (non-zero) requested lifetime, exactly one timer is armed — a refresh
that fires after `granted` seconds and re-invokes `addMapping` on the
granted external port with lifetime `requested - granted`. -/
theorem refresh_timer_on_short_grant (intPort lifetime granted : Nat)
    (m : Mapping) (reg : Registry) (tid : Nat)
    (hok : m.externalPort ≠ -1) (hgr : m.lifetime = some granted)
    (hpos : 0 < lifetime) (hshort : granted < lifetime) :
    (saveAndRefreshMapping intPort lifetime m reg tid).2.2 =
      some (.refresh (granted * 1000) intPort m.externalPort
        ((lifetime : Int) - (granted : Int))) := by
  have hlz : ¬ lifetime = 0 := by omega
  have hd : ((lifetime : Int) - (granted : Int) > 0) := by omega
  simp only [saveAndRefreshMapping, hgr, if_neg hlz, Option.getD_some]
  simp [hok, hd]

/-- Closed witness for `refresh_timer_on_short_grant`: requesting 300 s
and being granted 120 s arms one refresh at 120 s with lifetime 180. -/
theorem refresh_timer_on_short_grant_witness :
    (({ externalPort := 4000, lifetime := some 120 } : Mapping).externalPort ≠ -1 ∧
      ({ externalPort := 4000, lifetime := some 120 } : Mapping).lifetime = some 120 ∧
      0 < 300 ∧ 120 < 300) ∧
    (saveAndRefreshMapping 4000 300 { externalPort := 4000, lifetime := some 120 } [] 7).2.2 =
      some (.refresh 120000 4000 4000 180) :=
  ⟨⟨by decide, rfl, by decide, by decide⟩,
   refresh_timer_on_short_grant 4000 300 120 _ [] 7 (by decide) rfl
     (by decide) (by decide)⟩

/-- Writing a mapping and reading the same key gives it back. -/
lemma lookupReg_setReg (reg : Registry) (p : Int) (m' : Mapping) :
    lookupReg (setReg reg p m') p = some m' := by
  induction reg with
  | nil => simp [setReg, lookupReg, List.find?]
  | cons kv rest ih =>
    by_cases h : kv.1 = p
    · simp [setReg, h, lookupReg, List.find?]
    · simp [setReg, h, lookupReg, List.find?, ih]
      simpa [lookupReg] using ih

/-- A later adoption fully overwrites an earlier one (the five adopted
fields are all rewritten). -/
lemma adoptOne_adoptOne (m : Mapping) (r1 : Nat → Nat) (p1 : String)
    (r2 : Nat → Nat) (p2 : String) :
    adoptOne (adoptOne m r1 p1) r2 p2 = adoptOne m r2 p2 := rfl

/-- The cache after a wave's `forEach` is the old cache with every
responding router IP pushed once. -/
lemma adoptLoop_cache (l : List (String × Option ((Nat → Nat) × String))) :
    ∀ m cache, (adoptLoop m cache l).2 = arrAddAux cache (respondedIps l) := by
  induction l with
  | nil => intro m cache; rfl
  | cons e rest ih =>
    intro m cache
    rcases e with ⟨rip, _ | ⟨r, p⟩⟩
    · simpa [adoptLoop, respondedIps] using ih m cache
    · by_cases h : rip ∈ cache
      · simpa [adoptLoop, respondedIps, arrAddAux, h] using
          ih (adoptOne m r p) cache
      · simpa [adoptLoop, respondedIps, arrAddAux, h] using
          ih (adoptOne m r p) (cache ++ [rip])

/-- Folding adoptions over a non-empty list adopts exactly the last one. -/
lemma foldl_adoptOne_last (s : List ((Nat → Nat) × String)) :
    ∀ (m : Mapping) (h : s ≠ []),
      s.foldl (fun mm rp => adoptOne mm rp.1 rp.2) m =
        adoptOne m (s.getLast h).1 (s.getLast h).2 := by
  induction s with
  | nil => intro m h; exact absurd rfl h
  | cons x t ih =>
    intro m h
    rcases t with _ | ⟨y, u⟩
    · rfl
    · have hne : y :: u ≠ [] := List.cons_ne_nil y u
      calc ((x :: y :: u).foldl (fun mm rp => adoptOne mm rp.1 rp.2) m)
          = (y :: u).foldl (fun mm rp => adoptOne mm rp.1 rp.2)
              (adoptOne m x.1 x.2) := rfl
        _ = adoptOne (adoptOne m x.1 x.2) ((y :: u).getLast hne).1
              ((y :: u).getLast hne).2 := ih (adoptOne m x.1 x.2) hne
        _ = adoptOne m ((y :: u).getLast hne).1 ((y :: u).getLast hne).2 :=
              adoptOne_adoptOne ..
        _ = adoptOne m ((x :: y :: u).getLast h).1
              ((x :: y :: u).getLast h).2 := by
              rw [List.getLast_cons_cons]

/-- The mapping after a wave's `forEach` is the fold of the adoptions. -/
lemma adoptLoop_mapping (l : List (String × Option ((Nat → Nat) × String))) :
    ∀ m cache, (adoptLoop m cache l).1 =
      (successes l).foldl (fun mm rp => adoptOne mm rp.1 rp.2) m := by
  induction l with
  | nil => intro m cache; rfl
  | cons e rest ih =>
    intro m cache
    rcases e with ⟨rip, _ | ⟨r, p⟩⟩
    · simpa [adoptLoop, successes] using ih m cache
    · simpa [adoptLoop, successes] using
        ih (adoptOne m r p) (if rip ∈ cache then cache else cache ++ [rip])

/-- C8: the first PCP candidate wave is the router-IP cache followed by
the longest-prefix matches of `ROUTER_IPS` against each local IP, with
duplicates removed and cache entries first; the second wave is exactly
`ROUTER_IPS` minus the first; and the second wave is contacted only if
the first wave produced no successful mapping. -/
theorem pcp_wave_strategy (cache ips : List String)
    (intPort extPort reqLifetime : Nat) (m0 : Mapping) (env : PcpEnv) :
    (matchedRouterIps cache ips).Nodup ∧
    (∀ x, x ∈ matchedRouterIps cache ips ↔
      x ∈ cache.map some ∨ x ∈ ips.map (longestPrefixMatch ROUTER_IPS)) ∧
    (∃ t, matchedRouterIps cache ips = arrAdd (cache.map some) [] ++ t) ∧
    otherRouterIps cache ips =
      (ROUTER_IPS.map some).filter
        (fun x => decide (x ∉ matchedRouterIps cache ips)) ∧
    (sendPcpRequestsInWaves intPort extPort reqLifetime m0 cache ips env).2.2 =
      (if (sendPcpRequests intPort extPort reqLifetime m0 cache ips env
            (matchedRouterIps cache ips)).1.externalPort ≠ -1
       then [matchedRouterIps cache ips]
       else [matchedRouterIps cache ips, otherRouterIps cache ips]) := by
  refine ⟨nodup_arrAdd _ _, ?_, arrAdd_first _ _,
    by simp [otherRouterIps, arrDiff], ?_⟩
  · intro x
    rw [matchedRouterIps, mem_arrAdd]
    exact Iff.rfl
  · simp only [sendPcpRequestsInWaves]
    split_ifs <;> rfl

/-- C4 (counterexample): two routers of the same wave answer; the first
reply carries external port 4001, yet the returned mapping carries the
second reply's fields (port 4002, its external and internal IPs), and
both responder IPs — not just the first — are appended to the cache. -/
theorem pcp_first_reply_counterexample :
    getUint16 respA 42 = 4001 ∧
    (pcpAddMappingCore 4000 4001 600 [] []
      ["192.168.1.42", "10.0.1.5"] envC4).mapping.externalPort = 4002 ∧
    (pcpAddMappingCore 4000 4001 600 [] []
      ["192.168.1.42", "10.0.1.5"] envC4).mapping.externalIp =
        some "203.0.113.6" ∧
    (pcpAddMappingCore 4000 4001 600 [] []
      ["192.168.1.42", "10.0.1.5"] envC4).mapping.internalIp =
        some "10.0.1.5" ∧
    (pcpAddMappingCore 4000 4001 600 [] []
      ["192.168.1.42", "10.0.1.5"] envC4).cache =
        ["192.168.1.1", "10.0.1.1"] := by
  refine ⟨by decide, by decide, ?_, by decide, by decide⟩
  rfl

/-- C4 (amended): when several routers of one wave reply, the returned
mapping carries the fields of the **last** successful reply in the wave's
ordering, and **every** responding router IP is appended (once) to the
router-IP cache, in wave order. -/
theorem pcp_last_reply_wins (intPort extPort reqLifetime : Nat) (m : Mapping)
    (cache ips : List String) (env : PcpEnv) (wave : List (Option String))
    (entries : List (String × Option ((Nat → Nat) × String)))
    (hfan : addFanOut ips intPort extPort reqLifetime env wave = some entries)
    (hne : successes entries ≠ []) :
    (sendPcpRequests intPort extPort reqLifetime m cache ips env wave).1 =
      adoptOne m ((successes entries).getLast hne).1
        ((successes entries).getLast hne).2 ∧
    (sendPcpRequests intPort extPort reqLifetime m cache ips env wave).2 =
      arrAddAux cache (respondedIps entries) := by
  constructor
  · simp only [sendPcpRequests, hfan]
    rw [adoptLoop_mapping]
    exact foldl_adoptOne_last _ m hne
  · simp only [sendPcpRequests, hfan]
    exact adoptLoop_cache _ m cache

/-- Closed witness for `pcp_last_reply_wins` on the two-router wave of
`envC4`. -/
theorem pcp_last_reply_wins_witness :
    (addFanOut ["192.168.1.42", "10.0.1.5"] 4000 4001 600 envC4
        (matchedRouterIps [] ["192.168.1.42", "10.0.1.5"]) = some entriesC4 ∧
      successes entriesC4 ≠ []) ∧
    ((sendPcpRequests 4000 4001 600 (initPcpMapping 4000) []
        ["192.168.1.42", "10.0.1.5"] envC4
        (matchedRouterIps [] ["192.168.1.42", "10.0.1.5"])).1 =
      adoptOne (initPcpMapping 4000)
        ((successes entriesC4).getLast (by simp [entriesC4, successes])).1
        ((successes entriesC4).getLast (by simp [entriesC4, successes])).2 ∧
    (sendPcpRequests 4000 4001 600 (initPcpMapping 4000) []
        ["192.168.1.42", "10.0.1.5"] envC4
        (matchedRouterIps [] ["192.168.1.42", "10.0.1.5"])).2 =
      arrAddAux [] (respondedIps entriesC4)) :=
  ⟨⟨rfl, by simp [entriesC4, successes]⟩,
   pcp_last_reply_wins 4000 4001 600 (initPcpMapping 4000) []
     ["192.168.1.42", "10.0.1.5"] envC4
     (matchedRouterIps [] ["192.168.1.42", "10.0.1.5"]) entriesC4 rfl
     (by simp [entriesC4, successes])⟩

/-- C6 (counterexample): a PCP MAP add response with non-zero result code
2 is still adopted — the returned mapping takes its external port 4001
(not the `-1` failure sentinel) and is inserted into the registry. -/
theorem pcp_nonzero_result_adopted_counterexample :
    getUint8 respC6 3 = 2 ∧
    (pcpAddMappingCore 4000 4001 600 [] ["192.168.1.1"]
      ["192.168.1.42"] envC6).mapping.externalPort = 4001 ∧
    lookupReg (pcpAddMappingCore 4000 4001 600 [] ["192.168.1.1"]
      ["192.168.1.42"] envC6).registry 4001 =
      some (pcpAddMappingCore 4000 4001 600 [] ["192.168.1.1"]
        ["192.168.1.42"] envC6).mapping := by
  refine ⟨by decide, by decide, by decide⟩

/-- C6 (amended): on add the result code is never examined — any reply is
adopted (external port is the reply's u16 at offset 42, never `-1`) and
the successful mapping is inserted into the registry keyed by its
external port; only on delete is the result code read, where 0 and 8
remove the registry entry and any other code leaves the state
unchanged. -/
theorem pcp_result_code_only_on_delete
    (m : Mapping) (resp : Nat → Nat) (pip : String)
    (intPort lifetime : Nat) (m1 : Mapping) (reg : Registry) (tid : Nat)
    (reg2 : Registry) (timers : List Nat) (extPort : Int) (mm : Mapping)
    (rsp : Nat → Nat)
    (hok : m1.externalPort ≠ -1)
    (hlook : lookupReg reg2 extPort = some mm) :
    ((adoptOne m resp pip).externalPort = (getUint16 resp 42 : Int) ∧
      (adoptOne m resp pip).externalPort ≠ -1) ∧
    lookupReg (saveAndRefreshMapping intPort lifetime m1 reg tid).2.1
      ((saveAndRefreshMapping intPort lifetime m1 reg tid).1.externalPort) =
      some (saveAndRefreshMapping intPort lifetime m1 reg tid).1 ∧
    ((getUint8 rsp 3 = 0 ∨ getUint8 rsp 3 = 8) →
      (deleteLoop extPort (reg2, timers) [some rsp]).1 =
        removeReg reg2 extPort) ∧
    (¬(getUint8 rsp 3 = 0 ∨ getUint8 rsp 3 = 8) →
      deleteLoop extPort (reg2, timers) [some rsp] = (reg2, timers)) := by
  refine ⟨⟨rfl, ?_⟩, ?_, ?_, ?_⟩
  · simp only [adoptOne]
    omega
  · simp only [saveAndRefreshMapping]
    split_ifs with h1 h2 h3 h4 <;>
      simp_all [lookupReg_setReg]
  · intro h
    simp [deleteLoop, h, hlook]
  · intro h
    simp [deleteLoop, h]

/-- Closed witness for `pcp_result_code_only_on_delete`: a result-code-2
reply adopted on add, and a result-code-8 reply removing the entry on
delete. -/
theorem pcp_result_code_only_on_delete_witness :
    ((adoptOne (initPcpMapping 4000) respC6 "192.168.1.42").externalPort ≠ -1 ∧
      lookupReg [(4000, mC1)] 4000 = some mC1) ∧
    (((adoptOne (initPcpMapping 4000) respC6 "192.168.1.42").externalPort =
        (getUint16 respC6 42 : Int) ∧
      (adoptOne (initPcpMapping 4000) respC6 "192.168.1.42").externalPort ≠ -1) ∧
    lookupReg (saveAndRefreshMapping 4000 600
        (adoptOne (initPcpMapping 4000) respC6 "192.168.1.42") [] 5).2.1
      ((saveAndRefreshMapping 4000 600
        (adoptOne (initPcpMapping 4000) respC6 "192.168.1.42") [] 5).1.externalPort) =
      some (saveAndRefreshMapping 4000 600
        (adoptOne (initPcpMapping 4000) respC6 "192.168.1.42") [] 5).1 ∧
    ((getUint8 respDel8 3 = 0 ∨ getUint8 respDel8 3 = 8) →
      (deleteLoop 4000 ([(4000, mC1)], [7]) [some respDel8]).1 =
        removeReg [(4000, mC1)] 4000) ∧
    (¬(getUint8 respDel8 3 = 0 ∨ getUint8 respDel8 3 = 8) →
      deleteLoop 4000 ([(4000, mC1)], [7]) [some respDel8] =
        ([(4000, mC1)], [7]))) :=
  ⟨⟨by decide, by decide⟩,
   pcp_result_code_only_on_delete (initPcpMapping 4000) respC6 "192.168.1.42"
     4000 600 (adoptOne (initPcpMapping 4000) respC6 "192.168.1.42") [] 5
     [(4000, mC1)] [7] 4000 mC1 respDel8 (by decide) (by decide)⟩

/-- C1 (code bug): the PCP deleter of the entry on port 4000 sends one
lifetime-0 MAP request (external port field 0) reusing the original nonce
`[11, 22, 33]`; the router answers with result code 8, the registry entry
is removed and its refresh timer cancelled — yet the promise resolves to
`false`, because the `return true` of `_deleteFromActiveMappings` sits
inside the `forEach` callback and the function falls through to its final
`return false`. -/
theorem pcp_delete_resolves_false_eval :
    (PortControl.deleteMapping sC1 4000 envC1).result = .ok false ∧
    (PortControl.deleteMapping sC1 4000 envC1).state.activeMappings = [] ∧
    (PortControl.deleteMapping sC1 4000 envC1).state.armedTimers = [] ∧
    (PortControl.deleteMapping sC1 4000 envC1).sent.map Prod.fst =
      ["192.168.1.1"] ∧
    ((PortControl.deleteMapping sC1 4000 envC1).sent.map
      (fun pr => (getUint32 pr.2.data 4, getUint16 pr.2.data 42,
        getUint32 pr.2.data 24, getUint32 pr.2.data 28,
        getUint32 pr.2.data 32))) = [(0, 0, 11, 22, 33)] := by
  refine ⟨rfl, by decide, by decide, by decide, by decide⟩

/-- C5 (counterexample): with an unpopulated support cache, NAT-PMP
failing and local-IP enumeration failing, `addMapping` does not resolve
with a Mapping — the promise rejects with the `getPrivateIps()` error,
which escapes to the caller. -/
theorem addMapping_rejects_counterexample :
    PortControl.addMapping {} 4000 4000 300 envC5 =
      .error "getPrivateIps() failed" := rfl

/-- C5 (amended): with an unpopulated support cache, `addMapping` tries
NAT-PMP, then PCP, then UPnP, strictly in that order, stopping at the
first mapping whose external port is not `-1`; provided local-IP
enumeration succeeds, the promise always resolves with a Mapping value
(the spec-modelled UPnP outcome after all three fail) and never
rejects. -/
theorem addMapping_fallback_order (s : PCState)
    (intPort extPort lifetime : Nat) (env : OrchEnv) (ips : List String)
    (hcache : s.protocolSupportCache.natPmp = none)
    (hips : env.pcp.privateIps = some ips) :
    PortControl.addMapping s intPort extPort lifetime env =
      (let r := pcpAddMappingCore intPort extPort lifetime s.activeMappings
        s.routerIpCache ips env.pcp
      let s' : PCState := { s with
        activeMappings := r.registry,
        routerIpCache := r.cache,
        armedTimers := match r.timer with
          | some _ => s.armedTimers ++ [env.pcp.timerId]
          | none => s.armedTimers }
      if env.pmpMapping.externalPort ≠ -1 then
        .ok (env.pmpMapping, s, [.natPmp])
      else if r.mapping.externalPort ≠ -1 then
        .ok (r.mapping, s', [.natPmp, .pcp])
      else
        .ok (env.upnpMapping, s', [.natPmp, .pcp, .upnp])) := by
  simp only [PortControl.addMapping, hcache, pcpAddMapping, hips,
    natPmpAddMapping, upnpAddMapping, if_pos]

/-- Closed witness for `addMapping_fallback_order`: no router answers, so
all three protocols are attempted in order and the caller still receives
a Mapping value. -/
theorem addMapping_fallback_order_witness :
    (({} : PCState).protocolSupportCache.natPmp = none ∧
      envC5ok.pcp.privateIps = some ["192.168.1.42"]) ∧
    PortControl.addMapping {} 4000 4000 300 envC5ok =
      (let r := pcpAddMappingCore 4000 4000 300 ({} : PCState).activeMappings
        ({} : PCState).routerIpCache ["192.168.1.42"] envC5ok.pcp
      let s' : PCState := { ({} : PCState) with
        activeMappings := r.registry,
        routerIpCache := r.cache,
        armedTimers := match r.timer with
          | some _ => ({} : PCState).armedTimers ++ [envC5ok.pcp.timerId]
          | none => ({} : PCState).armedTimers }
      if envC5ok.pmpMapping.externalPort ≠ -1 then
        .ok (envC5ok.pmpMapping, ({} : PCState), [.natPmp])
      else if r.mapping.externalPort ≠ -1 then
        .ok (r.mapping, s', [.natPmp, .pcp])
      else
        .ok (envC5ok.upnpMapping, s', [.natPmp, .pcp, .upnp])) :=
  ⟨⟨rfl, rfl⟩,
   addMapping_fallback_order {} 4000 4000 300 envC5ok ["192.168.1.42"]
     rfl rfl⟩

/-- C10: `PortControl.deleteMapping` on an external port with no registry
entry resolves to `false`, performs no network I/O, and leaves the whole
orchestrator state — registry, router-IP cache, protocol-support cache
and timers — untouched. -/
theorem deleteMapping_absent_frame (s : PCState) (extPort : Int)
    (env : PcpEnv) (h : lookupReg s.activeMappings extPort = none) :
    PortControl.deleteMapping s extPort env = ⟨.ok false, s, []⟩ := by
  simp only [PortControl.deleteMapping, h]

/-- Closed witness for `deleteMapping_absent_frame` on an empty
registry. -/
theorem deleteMapping_absent_frame_witness :
    lookupReg ({} : PCState).activeMappings 5000 = none ∧
    PortControl.deleteMapping {} 5000 envTrivial =
      ⟨.ok false, {}, []⟩ :=
  ⟨rfl, deleteMapping_absent_frame {} 5000 envTrivial rfl⟩

/-- C2 (code bug): for every orchestrator state, `close()` rejects with a
`TypeError` — `activeMappings` is a plain object with no `forEach`
method — before any `deleteMapping` call is made, instead of snapshotting
the registry keys and deleting them all. -/
theorem close_rejects_typeerror (s : PCState) :
    PortControl.close s =
      .error "TypeError: this.activeMappings.forEach is not a function" := rfl

end PortsModel
